import Mathlib

/-!
Shallow embedding of `vimdemux/utils.py`: the source-position-to-enclosing-
definition resolver (`_find_path_to_test`, `_find_enclosing_class`), the
test-runner command builders (`_run_test`, `_debug_test`) and the path
remapping helper (`_get_mapped_filename` / `_load_settings`).

Python's `ast` nodes are modelled by `Node`: every node carries the fields the
code reads (`lineno`, `name`, `body`); `kind` plays the role of the
`isinstance` checks. `ast.walk` is a breadth-first traversal implemented with
a queue, reproduced here as `walk`. Parsing is abstracted: a source text is
either a parsed `Module` or a `ParseError` (`ast.parse` raising
`SyntaxError`), and exception propagation is modelled with `Except`.
-/

namespace Vimdemux

/-- The node kinds the code distinguishes via `isinstance`:
`ast.FunctionDef`, `ast.AsyncFunctionDef`, `ast.ClassDef`, and everything
else (plain statements/expressions). -/
inductive NodeKind : Type where
  | functionDef
  | asyncFunctionDef
  | classDef
  | stmt
  deriving DecidableEq, Repr

/-- A syntax-tree node: kind, `name` attribute, `lineno` attribute (1-based
line of the keyword/statement), and the list of child nodes (`iter_child_nodes`
order; for `def`/`class` nodes this is the body). -/
inductive Node : Type where
  | mk (kind : NodeKind) (name : String) (lineno : Nat) (body : List Node) : Node

/-- `node.kind` -/
def Node.kind : Node → NodeKind
  | .mk k _ _ _ => k

/-- `node.name` -/
def Node.name : Node → String
  | .mk _ s _ _ => s

/-- `node.lineno` -/
def Node.lineno : Node → Nat
  | .mk _ _ l _ => l

/-- `node.body` / child nodes -/
def Node.body : Node → List Node
  | .mk _ _ _ b => b

/-- An `ast.Module`: list of top-level statements. -/
structure Module : Type where
  body : List Node

mutual

/-- Size of a node (for termination of the breadth-first walk). -/
def Node.size : Node → Nat
  | .mk _ _ _ b => 1 + Node.sizeList b

/-- Total size of a list of nodes. -/
def Node.sizeList : List Node → Nat
  | [] => 0
  | n :: rest => Node.size n + Node.sizeList rest

end

theorem Node.sizeList_append (l₁ l₂ : List Node) :
    Node.sizeList (l₁ ++ l₂) = Node.sizeList l₁ + Node.sizeList l₂ := by
  induction l₁ with
  | nil => simp [Node.sizeList]
  | cons n rest ih => simp [Node.sizeList, ih]; omega

/-- `ast.walk`: breadth-first traversal. The Python implementation keeps a
deque initialised with the root, pops from the left, yields the node and
appends its children; starting the queue at the module's top-level statements
yields the same sequence with the (non-function, non-class) `Module` root
omitted. -/
def walk (queue : List Node) : List Node :=
  match queue with
  | [] => []
  | n :: rest => n :: walk (rest ++ n.body)
termination_by Node.sizeList queue
decreasing_by
  simp [Node.sizeList_append, Node.sizeList]
  cases n with
  | mk k s l b => simp [Node.body, Node.size]; omega

/-- The `isinstance(node, ast.FunctionDef) or isinstance(node,
ast.AsyncFunctionDef)` test from `_find_path_to_test`. -/
def isFunctionLike (n : Node) : Bool :=
  n.kind == NodeKind.functionDef || n.kind == NodeKind.asyncFunctionDef

/-- The containment test `node.lineno <= lineno and lineno <=
node.body[-1].lineno` from `_find_path_to_test`. `body[-1]` is the last
element of the body; Python guarantees a nonempty body for every parsed
`def`, so the empty case is unreachable on parsed trees (rendered as a
non-match here). -/
def funcCheck (n : Node) (lineno : Nat) : Bool :=
  match n.body.getLast? with
  | some last => decide (n.lineno ≤ lineno) && decide (lineno ≤ last.lineno)
  | none => false

/-- The containment test `start_line <= lineno <= end_line` from
`_find_enclosing_class`, where `start_line = node.lineno` and
`end_line = node.body[-1].lineno + 1`. -/
def classCheck (n : Node) (lineno : Nat) : Bool :=
  match n.body.getLast? with
  | some last =>
      decide (n.lineno ≤ lineno) && decide (lineno ≤ last.lineno + 1)
  | none => false

/-- The loop of `_find_enclosing_class`: scan the walk sequence; on the first
`ast.ClassDef` node whose `[start_line, last_body_statement_line + 1]`
interval contains `lineno`, return its name; at the end of the loop return
`None`. -/
def find_enclosing_class_loop (queue : List Node) (lineno : Nat) :
    Option String :=
  match queue with
  | [] => none
  | n :: rest =>
    if n.kind == NodeKind.classDef then
      if classCheck n lineno then some n.name
      else find_enclosing_class_loop rest lineno
    else find_enclosing_class_loop rest lineno

/-- `_find_enclosing_class(filename, lineno)` after parsing `filename` to the
module `m`. -/
def find_enclosing_class (m : Module) (lineno : Nat) : Option String :=
  find_enclosing_class_loop (walk m.body) lineno

/-- The loop of `_find_path_to_test`: scan the walk sequence; on the first
function-like node whose interval contains `lineno`, return
`(_find_enclosing_class(filename, node.lineno), node.name)`; at the end of
the loop return `(None, None)`. -/
def find_path_to_test_loop (m : Module) (queue : List Node) (lineno : Nat) :
    Option String × Option String :=
  match queue with
  | [] => (none, none)
  | n :: rest =>
    if isFunctionLike n then
      if funcCheck n lineno then
        (find_enclosing_class m n.lineno, some n.name)
      else find_path_to_test_loop m rest lineno
    else find_path_to_test_loop m rest lineno

/-- `_find_path_to_test(filename, lineno)` after parsing `filename` to the
module `m` (the function and its helper each re-read and re-parse the same
file, so both see the same tree). -/
def find_path_to_test (m : Module) (lineno : Nat) :
    Option String × Option String :=
  find_path_to_test_loop m (walk m.body) lineno

/-- `ast.parse` raising on syntactically invalid source. -/
inductive ParseError : Type where
  | syntaxError
  deriving DecidableEq, Repr

/-- A source text as the resolver sees it: either it parses to a module or
`ast.parse` raises a syntax error. -/
abbrev Source : Type := Except ParseError Module

/-- `_find_path_to_test` including the parse step: a parse failure escapes
as an exception (no partial result), modelled by `Except` propagation. -/
def find_path_to_testE (src : Source) (lineno : Nat) :
    Except ParseError (Option String × Option String) :=
  match src with
  | .error e => .error e
  | .ok m => .ok (find_path_to_test m lineno)

/-- Python truthiness of an optional string (`if function_class:` /
`if function_name:`): `None` and the empty string are falsy. -/
def pyTruthy : Option String → Bool
  | none => false
  | some s => !s.isEmpty

/-- The test-identifier construction shared by `_run_test` and `_debug_test`:
`test_name = basename`; `if function_class: test_name += "::" +
function_class`; `test_name += "::" + function_name`. -/
def buildTestName (basename : String) (function_class : Option String)
    (function_name : String) : String :=
  let t := basename
  let t := if pyTruthy function_class
    then t ++ "::" ++ function_class.getD ""
    else t
  t ++ "::" ++ function_name

/-- The tmux command sent by `_run_test` / `_debug_test`: the commands are
joined with `' && '` and wrapped in `tmux select-pane -R && tmux send-keys
'...' 'C-m'`. -/
def tmux_command (cmd : String) : String :=
  "tmux select-pane -R && tmux send-keys '" ++ cmd ++ "' 'C-m'"

/-- `_run_test(fullpath, linenum)` after the file is read: `dirname` and
`basename` are those of the mapped `fullpath`. A parse failure inside
`_find_path_to_test` escapes before any command is built. -/
def run_test (src : Source) (dirname basename : String) (lineno : Nat) :
    Except ParseError String :=
  match find_path_to_testE src lineno with
  | .error e => .error e
  | .ok (function_class, function_name) =>
    match function_name with
    | none =>
      .ok (tmux_command ("cd " ++ dirname ++ " && clear && echo " ++
        basename ++ " && pytest " ++ basename ++ " "))
    | some fname =>
      let test_name := buildTestName basename function_class fname
      .ok (tmux_command ("cd " ++ dirname ++ " && clear && echo " ++
        test_name ++ " && pytest " ++ test_name ++ " "))

/-- `_debug_test(fullpath, linenum)` after the file is read. Unlike
`_run_test`, it overwrites the class component: `if function_name:
function_class = _find_enclosing_class(fullpath, linenum)` — resolved
against the cursor line, not the function's start line. -/
def debug_test (src : Source) (dirname basename : String) (lineno : Nat) :
    Except ParseError String :=
  match find_path_to_testE src lineno with
  | .error e => .error e
  | .ok (function_class, function_name) =>
    let function_class :=
      match src with
      | .ok m =>
          if pyTruthy function_name then find_enclosing_class m lineno
          else function_class
      | .error _ => function_class
    match function_name with
    | none =>
      .ok (tmux_command ("cd " ++ dirname ++ " && clear && pytest --trace " ++
        basename ++ " "))
    | some fname =>
      let test_name := buildTestName basename function_class fname
      .ok (tmux_command ("cd " ++ dirname ++ " && clear && pytest --trace " ++
        test_name ++ " "))

/-- The test identifier `_run_test` hands to pytest when the cursor is inside
a function: `basename`, then `::class` when the class from
`_find_path_to_test` is truthy, then `::function` (lines 141-159); `none`
when the whole suite runs. -/
def run_test_id (m : Module) (basename : String) (lineno : Nat) :
    Option String :=
  match find_path_to_test m lineno with
  | (function_class, some fname) =>
      some (buildTestName basename function_class fname)
  | (_, none) => none

/-- The test identifier `_debug_test` hands to pytest: same construction, but
the class component is recomputed as `_find_enclosing_class(fullpath,
linenum)` — against the cursor line — whenever a function name was found
(lines 201-203, 220-237). -/
def debug_test_id (m : Module) (basename : String) (lineno : Nat) :
    Option String :=
  let r := find_path_to_test m lineno
  let function_class :=
    if pyTruthy r.2 then find_enclosing_class m lineno else r.1
  match r.2 with
  | some fname => some (buildTestName basename function_class fname)
  | none => none

/-- The parsed `~/.videmux.config` contents: the `"root-mappings"` key maps
to a list of `[actual, mapped]` pairs and may be absent. -/
structure Settings : Type where
  rootMappings : Option (List (String × String))

/-- `_load_settings()`: a missing settings file (`FileNotFoundError`) yields
the empty dictionary, in which `"root-mappings"` is absent. -/
def load_settings (file : Option Settings) : Settings :=
  match file with
  | none => ⟨none⟩
  | some s => s

/-- The loop of `_get_mapped_filename`: return
`filename.replace(actual, mapped)` for the first pair whose `actual` is a
prefix of `filename` (`str.replace` replaces every occurrence); if no pair
matches, return `filename` unchanged. -/
def mapping_loop (filename : String) : List (String × String) → String
  | [] => filename
  | (actual, mapped) :: rest =>
    if filename.startsWith actual then filename.replace actual mapped
    else mapping_loop filename rest

/-- `_get_mapped_filename(filename)`: load the settings, take
`settings.get("root-mappings", [])`, and run the matching loop. -/
def get_mapped_filename (file : Option Settings) (filename : String) :
    String :=
  mapping_loop filename ((load_settings file).rootMappings.getD [])

/-! ### Concrete example sources

`exScenario` is the spec's own scenario:
```
class TestClass:      # line 1
    def test_a(self): # line 2
        x = 1         # line 3
```
`exNested` nests one class in another; `exRunDebug` has a method longer than
its class's (truncated) interval; `exTwoFns` has two sibling functions with a
gap between them. -/

/-- The statement `x = 1` on line 3. -/
def stX : Node := .mk .stmt "" 3 []

/-- `def test_a(self):` on line 2, body ending on line 3. -/
def nTestA : Node := .mk .functionDef "test_a" 2 [stX]

/-- `class TestClass:` on line 1, last top-level body statement on line 2. -/
def nTestClass : Node := .mk .classDef "TestClass" 1 [nTestA]

/-- The spec's scenario module. -/
def exScenario : Module := ⟨[nTestClass]⟩

/-- `def f(self):` on line 3 with body `pass` on line 4. -/
def nF : Node := .mk .functionDef "f" 3 [.mk .stmt "" 4 []]

/-- `class Inner:` on line 2 containing `nF`; interval `[2, 4]`. -/
def nInner : Node := .mk .classDef "Inner" 2 [nF]

/-- `class Outer:` on line 1 containing `nInner`; interval `[1, 3]`. -/
def nOuter : Node := .mk .classDef "Outer" 1 [nInner]

/-- Module with the nested classes `Outer`/`Inner` and method `f`. -/
def exNested : Module := ⟨[nOuter]⟩

/-- `def f(self):` on line 2 with three body statements on lines 3-5. -/
def nLongF : Node :=
  .mk .functionDef "f" 2 [.mk .stmt "" 3 [], .mk .stmt "" 4 [], .mk .stmt "" 5 []]

/-- `class C:` on line 1: its last top-level body statement is the `def` on
line 2, so its interval `[1, 3]` misses lines 4-5 of the method body. -/
def nC : Node := .mk .classDef "C" 1 [nLongF]

/-- Module whose method extends past its class's interval. -/
def exRunDebug : Module := ⟨[nC]⟩

/-- `def f1():` spanning lines 1-3. -/
def nF1 : Node := .mk .functionDef "f1" 1 [.mk .stmt "" 2 [], .mk .stmt "" 3 []]

/-- `def f2():` spanning lines 5-7. -/
def nF2 : Node := .mk .functionDef "f2" 5 [.mk .stmt "" 6 [], .mk .stmt "" 7 []]

/-- Module with two sibling top-level functions and a blank line 4. -/
def exTwoFns : Module := ⟨[nF1, nF2]⟩

/-! ### Characterisation of the loops as first-match searches -/

theorem funcCheck_iff (n : Node) (x : Nat) :
    funcCheck n x = true ↔
      ∃ last, n.body.getLast? = some last ∧ n.lineno ≤ x ∧ x ≤ last.lineno := by
  cases h : n.body.getLast? <;> simp [funcCheck, h]

theorem classCheck_iff (n : Node) (x : Nat) :
    classCheck n x = true ↔
      ∃ last, n.body.getLast? = some last ∧
        n.lineno ≤ x ∧ x ≤ last.lineno + 1 := by
  cases h : n.body.getLast? <;> simp [classCheck, h]

theorem find_enclosing_class_loop_eq (x : Nat) (l : List Node) :
    find_enclosing_class_loop l x =
      (l.find? fun c =>
        (c.kind == NodeKind.classDef) && classCheck c x).map Node.name := by
  induction l with
  | nil => rfl
  | cons n rest ih =>
    simp only [find_enclosing_class_loop]
    cases hk : (n.kind == NodeKind.classDef) with
    | false => simp [hk, ih]
    | true =>
      cases hc : classCheck n x with
      | false => simp [hk, hc, ih]
      | true => simp [hk, hc]

theorem find_enclosing_class_eq (m : Module) (x : Nat) :
    find_enclosing_class m x =
      ((walk m.body).find? fun c =>
        (c.kind == NodeKind.classDef) && classCheck c x).map Node.name :=
  find_enclosing_class_loop_eq x (walk m.body)

theorem find_path_to_test_loop_eq (m : Module) (x : Nat) (l : List Node) :
    find_path_to_test_loop m l x =
      match l.find? (fun n => isFunctionLike n && funcCheck n x) with
      | some n => (find_enclosing_class m n.lineno, some n.name)
      | none => (none, none) := by
  induction l with
  | nil => rfl
  | cons n rest ih =>
    simp only [find_path_to_test_loop]
    cases hk : isFunctionLike n with
    | false => simp [hk, ih]
    | true =>
      cases hc : funcCheck n x with
      | false => simp [hk, hc, ih]
      | true => simp [hk, hc]

theorem find_path_to_test_eq (m : Module) (x : Nat) :
    find_path_to_test m x =
      match (walk m.body).find? (fun n => isFunctionLike n && funcCheck n x)
        with
      | some n =>
          (((walk m.body).find? fun c =>
            (c.kind == NodeKind.classDef) && classCheck c n.lineno).map
              Node.name,
           some n.name)
      | none => (none, none) := by
  rw [find_path_to_test, find_path_to_test_loop_eq]
  cases (walk m.body).find? (fun n => isFunctionLike n && funcCheck n x) with
  | none => rfl
  | some n => simp [find_enclosing_class_eq]

/-! ### Walks of the example modules -/

theorem walk_exScenario : walk exScenario.body = [nTestClass, nTestA, stX] := by
  simp [walk, exScenario, nTestClass, nTestA, stX, Node.body]

theorem walk_exNested :
    walk exNested.body = [nOuter, nInner, nF, Node.mk .stmt "" 4 []] := by
  simp [walk, exNested, nOuter, nInner, nF, Node.body]

theorem walk_exRunDebug :
    walk exRunDebug.body =
      [nC, nLongF, Node.mk .stmt "" 3 [], Node.mk .stmt "" 4 [],
        Node.mk .stmt "" 5 []] := by
  simp [walk, exRunDebug, nC, nLongF, Node.body]

theorem walk_exTwoFns :
    walk exTwoFns.body =
      [nF1, nF2, Node.mk .stmt "" 2 [], Node.mk .stmt "" 3 [],
        Node.mk .stmt "" 6 [], Node.mk .stmt "" 7 []] := by
  simp [walk, exTwoFns, nF1, nF2, Node.body]

/-! ### Concrete resolver results on the examples -/

theorem eval_exScenario_2 :
    find_path_to_test exScenario 2 = (some "TestClass", some "test_a") := by
  rw [find_path_to_test_eq, walk_exScenario]; decide

theorem eval_exScenario_3 :
    find_path_to_test exScenario 3 = (some "TestClass", some "test_a") := by
  rw [find_path_to_test_eq, walk_exScenario]; decide

theorem eval_exScenario_1 :
    find_path_to_test exScenario 1 = (none, none) := by
  rw [find_path_to_test_eq, walk_exScenario]; decide

theorem eval_exNested_4 :
    find_path_to_test exNested 4 = (some "Outer", some "f") := by
  rw [find_path_to_test_eq, walk_exNested]; decide

theorem eval_exTwoFns_4 :
    find_path_to_test exTwoFns 4 = (none, none) := by
  rw [find_path_to_test_eq, walk_exTwoFns]; decide

theorem eval_exRunDebug_5 :
    find_path_to_test exRunDebug 5 = (some "C", some "f") := by
  rw [find_path_to_test_eq, walk_exRunDebug]; decide

theorem eval_fec_exRunDebug_5 : find_enclosing_class exRunDebug 5 = none := by
  rw [find_enclosing_class_eq, walk_exRunDebug]; decide

theorem eval_run_id_exRunDebug_5 :
    run_test_id exRunDebug "test_a.py" 5 = some "test_a.py::C::f" := by
  rw [run_test_id, eval_exRunDebug_5]; decide

theorem eval_debug_id_exRunDebug_5 :
    debug_test_id exRunDebug "test_a.py" 5 = some "test_a.py::f" := by
  rw [debug_test_id]
  simp only [eval_exRunDebug_5, eval_fec_exRunDebug_5]
  decide

/-! ### Claims -/

/-- C1: for every parsed source tree and target line `L`, the resolver
reports an enclosing function exactly when some function-like definition `f`
with start line `a` and last top-level body-statement line `b` satisfies
`a ≤ L ≤ b`; the containment check accepts `L = a` and `L = b` and rejects
`L = b + 1`. -/
theorem claim_C1 (m : Module) (L : Nat) :
    ((find_path_to_test m L).2.isSome = true ↔
      ∃ n, n ∈ walk m.body ∧ isFunctionLike n = true ∧
        ∃ last, n.body.getLast? = some last ∧
          n.lineno ≤ L ∧ L ≤ last.lineno) ∧
    (∀ n last, isFunctionLike n = true → n.body.getLast? = some last →
      n.lineno ≤ last.lineno →
      funcCheck n n.lineno = true ∧ funcCheck n last.lineno = true ∧
        funcCheck n (last.lineno + 1) = false) := by
  constructor
  · have key : (find_path_to_test m L).2.isSome =
        ((walk m.body).find?
          (fun n => isFunctionLike n && funcCheck n L)).isSome := by
      rw [find_path_to_test_eq]
      cases (walk m.body).find? (fun n => isFunctionLike n && funcCheck n L)
        <;> rfl
    rw [key, List.find?_isSome]
    constructor
    · rintro ⟨x, hx, hp⟩
      rw [Bool.and_eq_true] at hp
      exact ⟨x, hx, hp.1, (funcCheck_iff x L).mp hp.2⟩
    · rintro ⟨n, hn, hfl, last, hlast, h1, h2⟩
      refine ⟨n, hn, ?_⟩
      rw [Bool.and_eq_true]
      exact ⟨hfl, (funcCheck_iff n L).mpr ⟨last, hlast, h1, h2⟩⟩
  · intro n last hfl hlast hab
    refine ⟨?_, ?_, ?_⟩
    · exact (funcCheck_iff n _).mpr ⟨last, hlast, le_refl _, hab⟩
    · exact (funcCheck_iff n _).mpr ⟨last, hlast, hab, le_refl _⟩
    · cases hc : funcCheck n (last.lineno + 1) with
      | false => rfl
      | true =>
        obtain ⟨last', hl', _, hle⟩ := (funcCheck_iff _ _).mp hc
        rw [hlast] at hl'
        injection hl' with he
        subst he
        omega

/-- Witness for C1 on the spec's own scenario: line 3 is reported as inside a
function, and `test_a` (lines 2-3) contains lines 2 and 3 but not line 4. -/
theorem claim_C1_witness :
    (find_path_to_test exScenario 3).2.isSome = true ∧
      funcCheck nTestA 2 = true ∧ funcCheck nTestA 3 = true ∧
        funcCheck nTestA 4 = false := by
  refine ⟨?_, ?_, ?_, ?_⟩
  · exact (claim_C1 exScenario 3).1.mpr
      ⟨nTestA, by rw [walk_exScenario]; simp, rfl, stX, rfl, by decide,
        by decide⟩
  · exact ((claim_C1 exScenario 3).2 nTestA stX rfl rfl (by decide)).1
  · exact ((claim_C1 exScenario 3).2 nTestA stX rfl rfl (by decide)).2.1
  · exact ((claim_C1 exScenario 3).2 nTestA stX rfl rfl (by decide)).2.2

/-- C2: when a function containing `L` is found (the first match of the
walk), the class component is the name of the first class definition in
traversal order whose interval `[class_start_line,
class_last_body_statement_line + 1]` contains the matched function's own
start line — not `L` — and it is absent when no class matches. -/
theorem claim_C2 (m : Module) (L : Nat) (n : Node)
    (h : (walk m.body).find?
      (fun k => isFunctionLike k && funcCheck k L) = some n) :
    (find_path_to_test m L).1 =
      ((walk m.body).find? fun c =>
        (c.kind == NodeKind.classDef) && classCheck c n.lineno).map
          Node.name ∧
    (∀ c, ((c.kind == NodeKind.classDef) && classCheck c n.lineno) = true ↔
      c.kind = NodeKind.classDef ∧
        ∃ last, c.body.getLast? = some last ∧
          c.lineno ≤ n.lineno ∧ n.lineno ≤ last.lineno + 1) := by
  constructor
  · rw [find_path_to_test_eq, h]
  · intro c
    rw [Bool.and_eq_true, beq_iff_eq, classCheck_iff]

/-- Witness for C2 on the spec's scenario: the function matched at line 2 is
`test_a`, and the class component evaluates to the first matching class,
`TestClass`. -/
theorem claim_C2_witness :
    (find_path_to_test exScenario 2).1 = some "TestClass" := by
  have h := (claim_C2 exScenario 2 nTestA (by rw [walk_exScenario]; rfl)).1
  rw [h, walk_exScenario]
  decide

/-- C3 counterexample: in
```
class Outer:          # line 1
    class Inner:      # line 2
        def f(self):  # line 3
            pass      # line 4
```
the function `f` (start line 3) lies inside both class intervals
(`Outer`: `[1, 3]`, `Inner`: `[2, 4]`), `Inner` is the innermost, yet the
resolver returns `Outer` — the first class in the breadth-first walk. -/
theorem claim_C3_counterexample :
    find_path_to_test exNested 4 = (some "Outer", some "f") ∧
      nInner ∈ nOuter.body ∧ nF ∈ nInner.body ∧
      classCheck nOuter nF.lineno = true ∧
      classCheck nInner nF.lineno = true ∧
      (some "Outer" : Option String) ≠ some "Inner" := by
  exact ⟨eval_exNested_4, by simp [nOuter, Node.body],
    by simp [nInner, Node.body], by decide, by decide, by decide⟩

/-- C3 amended: when several class definitions' intervals contain the matched
function's start line, the class name returned is that of the first such
class in the breadth-first traversal order of `ast.walk` (for nested classes
this is an outermost matching class, not the innermost). -/
theorem claim_C3_amended (m : Module) (L : Nat) (n c : Node)
    (hf : (walk m.body).find?
      (fun k => isFunctionLike k && funcCheck k L) = some n)
    (hc : (walk m.body).find?
      (fun k => (k.kind == NodeKind.classDef) && classCheck k n.lineno) =
        some c) :
    (find_path_to_test m L).1 = some c.name := by
  rw [find_path_to_test_eq, hf]
  simp [hc]

/-- Witness for C3 (amended) on the nested-classes example: the first
matching class for `f`'s start line is `Outer`. -/
theorem claim_C3_witness :
    (find_path_to_test exNested 4).1 = some "Outer" :=
  claim_C3_amended exNested 4 nF nOuter (by rw [walk_exNested]; rfl)
    (by rw [walk_exNested]; rfl)

/-- C4: when the target line lies in no function-like definition's
containment interval, the resolver returns `(None, None)`. -/
theorem claim_C4 (m : Module) (L : Nat)
    (h : ∀ n ∈ walk m.body,
      ¬(isFunctionLike n = true ∧ funcCheck n L = true)) :
    find_path_to_test m L = (none, none) := by
  rw [find_path_to_test_eq]
  have hn : (walk m.body).find?
      (fun n => isFunctionLike n && funcCheck n L) = none := by
    rw [List.find?_eq_none]
    intro x hx hp
    rw [Bool.and_eq_true] at hp
    exact h x hx hp
  rw [hn]

/-- Witness for C4: line 4 of the two-sibling-functions example (between
`f1`, lines 1-3, and `f2`, lines 5-7) resolves to `(None, None)`. -/
theorem claim_C4_witness : find_path_to_test exTwoFns 4 = (none, none) :=
  claim_C4 exTwoFns 4 (by rw [walk_exTwoFns]; decide)

/-- C5: the class component of a resolver result is present only when the
function component is present. -/
theorem claim_C5 (m : Module) (L : Nat)
    (h : (find_path_to_test m L).1.isSome = true) :
    (find_path_to_test m L).2.isSome = true := by
  rw [find_path_to_test_eq] at h ⊢
  cases hf : (walk m.body).find? (fun n => isFunctionLike n && funcCheck n L)
    with
  | some n => rfl
  | none => rw [hf] at h; simp at h

/-- Witness for C5 at the spec scenario, line 2: the class component is
present there, and so is the function component. -/
theorem claim_C5_witness : (find_path_to_test exScenario 2).2.isSome = true :=
  claim_C5 exScenario 2 (by rw [eval_exScenario_2]; rfl)

theorem pyTruthy_some_iff (s : String) : pyTruthy (some s) = true ↔ s ≠ "" := by
  constructor
  · intro h he
    subst he
    exact absurd h (by decide)
  · intro h
    simp only [pyTruthy, Bool.not_eq_true']
    cases hi : s.isEmpty with
    | false => rfl
    | true => exact absurd ((String.isEmpty_iff s).mp hi) h

/-- C6 counterexample: on a syntactically invalid source, `_run_test`
propagates the `ParseError` instead of degrading to whole-suite execution:
its result is the exception, not the whole-suite tmux command. -/
theorem claim_C6_counterexample :
    run_test (Except.error ParseError.syntaxError) "/tests" "test_a.py" 1 =
        Except.error ParseError.syntaxError ∧
      run_test (Except.error ParseError.syntaxError) "/tests" "test_a.py" 1 ≠
        Except.ok (tmux_command
          "cd /tests && clear && echo test_a.py && pytest test_a.py ") :=
  ⟨rfl, fun h => Except.noConfusion h⟩

/-- C6 amended: on a syntactically invalid source the resolver raises a
`ParseError` that propagates as an exception through `_find_path_to_test`,
`_run_test` and `_debug_test`, producing no partial result; no caller in the
code catches it, so no whole-suite fallback occurs and the error escapes the
tool. -/
theorem claim_C6 (e : ParseError) (dirname basename : String) (L : Nat) :
    find_path_to_testE (Except.error e) L = Except.error e ∧
      run_test (Except.error e) dirname basename L = Except.error e ∧
      debug_test (Except.error e) dirname basename L = Except.error e :=
  ⟨rfl, rfl, rfl⟩

/-- C7: when the resolver finds a function, the identifier handed to pytest
by `_run_test` is `basename::function` when the class component is absent,
and `basename::class::function` when both are present (a class name from a
parsed tree is never the empty string). -/
theorem claim_C7 (m : Module) (dirname basename : String) (L : Nat)
    (fn : String) (h : (find_path_to_test m L).2 = some fn) :
    ((find_path_to_test m L).1 = none →
      run_test (Except.ok m) dirname basename L =
        Except.ok (tmux_command ("cd " ++ dirname ++ " && clear && echo " ++
          (basename ++ "::" ++ fn) ++ " && pytest " ++
          (basename ++ "::" ++ fn) ++ " "))) ∧
    (∀ c, (find_path_to_test m L).1 = some c → c ≠ "" →
      run_test (Except.ok m) dirname basename L =
        Except.ok (tmux_command ("cd " ++ dirname ++ " && clear && echo " ++
          (basename ++ "::" ++ c ++ "::" ++ fn) ++ " && pytest " ++
          (basename ++ "::" ++ c ++ "::" ++ fn) ++ " "))) := by
  rcases hE : find_path_to_test m L with ⟨fc, fn'⟩
  rw [hE] at h
  simp only at h
  subst h
  constructor
  · intro h1
    simp only at h1
    subst h1
    simp only [run_test, find_path_to_testE, hE]
    simp [buildTestName, pyTruthy]
  · intro c hc hne
    simp only at hc
    subst hc
    simp only [run_test, find_path_to_testE, hE]
    have hp : pyTruthy (some c) = true := (pyTruthy_some_iff c).mpr hne
    simp [buildTestName, hp]

/-- Witness for C7 on the spec scenario at line 2: class `TestClass` and
function `test_a` yield the identifier `test_a.py::TestClass::test_a`. -/
theorem claim_C7_witness :
    run_test (Except.ok exScenario) "/tests" "test_a.py" 2 =
      Except.ok (tmux_command ("cd " ++ "/tests" ++ " && clear && echo " ++
        ("test_a.py" ++ "::" ++ "TestClass" ++ "::" ++ "test_a") ++
        " && pytest " ++
        ("test_a.py" ++ "::" ++ "TestClass" ++ "::" ++ "test_a") ++ " ")) :=
  (claim_C7 exScenario "/tests" "test_a.py" 2 "test_a"
      (by rw [eval_exScenario_2])).2 "TestClass"
    (by rw [eval_exScenario_2]) (by decide)

/-- C8: the resolver is a pure function of the parsed source and the target
line — two calls with identical source text and identical target line yield
identical results (in the embedding the only input the Python code reads,
the file's text, is an explicit argument, so purity is by construction). -/
theorem claim_C8 (m₁ m₂ : Module) (L₁ L₂ : Nat) (hm : m₁ = m₂)
    (hL : L₁ = L₂) :
    find_path_to_test m₁ L₁ = find_path_to_test m₂ L₂ := by
  subst hm
  subst hL
  rfl

/-- Witness for C8: two identical calls on the spec scenario coincide. -/
theorem claim_C8_witness :
    find_path_to_test exScenario 2 = find_path_to_test exScenario 2 :=
  claim_C8 exScenario exScenario 2 2 rfl rfl

/-- C9: `_run_test`'s identifier uses the class component computed by
`_find_path_to_test` (the class containing the matched function's start
line), while `_debug_test` recomputes the class against the cursor line
itself; on a method that extends past its class's truncated interval the two
paths hand different identifiers to pytest (`test_a.py::C::f` versus
`test_a.py::f`). -/
theorem claim_C9 :
    (∀ (m : Module) (basename : String) (L : Nat) (fn : String),
      (find_path_to_test m L).2 = some fn → fn ≠ "" →
        debug_test_id m basename L =
          some (buildTestName basename (find_enclosing_class m L) fn) ∧
        run_test_id m basename L =
          some (buildTestName basename (find_path_to_test m L).1 fn)) ∧
    run_test_id exRunDebug "test_a.py" 5 = some "test_a.py::C::f" ∧
    debug_test_id exRunDebug "test_a.py" 5 = some "test_a.py::f" ∧
    run_test_id exRunDebug "test_a.py" 5 ≠
      debug_test_id exRunDebug "test_a.py" 5 := by
  refine ⟨?_, eval_run_id_exRunDebug_5, eval_debug_id_exRunDebug_5, ?_⟩
  · intro m basename L fn h hne
    have hp : pyTruthy (some fn) = true := (pyTruthy_some_iff fn).mpr hne
    constructor
    · simp only [debug_test_id, h, hp]
      rfl
    · rcases hE : find_path_to_test m L with ⟨fc, fn'⟩
      rw [hE] at h
      simp only at h
      subst h
      simp only [run_test_id, hE]
  · rw [eval_run_id_exRunDebug_5, eval_debug_id_exRunDebug_5]
    decide

/-- Witness for C9: the general characterisation applied at the concrete
diverging input. -/
theorem claim_C9_witness :
    debug_test_id exRunDebug "test_a.py" 5 =
        some (buildTestName "test_a.py" (find_enclosing_class exRunDebug 5)
          "f") ∧
      run_test_id exRunDebug "test_a.py" 5 =
        some (buildTestName "test_a.py" (find_path_to_test exRunDebug 5).1
          "f") :=
  claim_C9.1 exRunDebug "test_a.py" 5 "f" (by rw [eval_exRunDebug_5])
    (by decide)

theorem mapping_loop_id (filename : String) (l : List (String × String))
    (h : ∀ p ∈ l, filename.startsWith p.1 = false) :
    mapping_loop filename l = filename := by
  induction l with
  | nil => rfl
  | cons p rest ih =>
    have h0 := h p (List.mem_cons_self _ _)
    have hrest := ih fun q hq => h q (List.mem_cons_of_mem _ hq)
    obtain ⟨actual, mapped⟩ := p
    simp only at h0
    simp [mapping_loop, h0, hrest]

/-- C10: when the settings file does not exist (so the settings load as the
empty dictionary), or no `[actual, mapped]` pair of the root-mappings list
has `actual` as a prefix of the filename, `_get_mapped_filename` returns the
filename unchanged. -/
theorem claim_C10 (file : Option Settings) (filename : String)
    (h : file = none ∨
      ∀ p ∈ ((load_settings file).rootMappings.getD []),
        filename.startsWith p.1 = false) :
    get_mapped_filename file filename = filename := by
  rcases h with h | h
  · subst h
    rfl
  · exact mapping_loop_id filename _ h

/-- Witness for C10: with no settings file, the self-test input `junkjunk`
maps to itself. -/
theorem claim_C10_witness : get_mapped_filename none "junkjunk" = "junkjunk" :=
  claim_C10 none "junkjunk" (Or.inl rfl)

end Vimdemux
